import Mathlib

/-!
Shallow embedding of the teledriving control daemon
(src/tools/joystick/joystickd.py, function joystickd_thread).

The per-tick body of the while-loop (lines 46-327) is modelled as a pure
function from the carried daemon state and the tick's bus inputs to the new
state and the messages published this tick.  Floats are modelled as rationals
(every constant in the source, -1.0, -3.0, 4.0, 0.1, 55, 1.609, is exactly
representable).  The capnp message defaults (enum value 0, empty string,
false, 0) are modelled by structure-field defaults, mirroring what
messaging.new_message produces before any field is assigned.

The controlsState message (lines 253-270) and its curvature computation touch
no carried state and no claim, so it is not modelled; the 1 Hz onroadEvents
heartbeat (lines 56-59) is modelled only by the flag recording whether it was
sent this tick.
-/

namespace Joystickd

/-- car.CarControl.Actuators.LongControlState (capnp enum, value 0 is off). -/
inductive LongCtrlState
  | off
  | pid
  | stopping
  | starting
  deriving DecidableEq, Repr

/-- car.CarState.ButtonEvent.Type (the constructors the daemon inspects,
plus representatives of the remaining values). -/
inductive ButtonType
  | unknown
  | leftBlinker
  | rightBlinker
  | accelCruise
  | decelCruise
  | cancel
  | setCruise
  | resumeCruise
  | mainCruise
  deriving DecidableEq, Repr

structure ButtonEvent where
  type : ButtonType
  pressed : Bool
  deriving DecidableEq, Repr

structure CruiseState where
  enabled : Bool
  available : Bool
  deriving DecidableEq, Repr

/-- The fields of the carState message the daemon reads. -/
structure CarState where
  vEgo : ℚ
  gasPressed : Bool
  brakePressed : Bool
  standstill : Bool
  steeringPressed : Bool
  steerFaultTemporary : Bool
  steerFaultPermanent : Bool
  buttonEvents : List ButtonEvent
  cruiseState : CruiseState
  steeringAngleDeg : ℚ
  deriving DecidableEq, Repr

/-- The CarParams fields the daemon reads after startup. -/
structure CarParams where
  openpilotLongitudinalControl : Bool
  deriving DecidableEq, Repr

/-- One tick's view of the SubMaster: liveness/validity of carState, the
latest carState payload, and whether a testJoystick message arrived this
update (sm.updated), whether the latest one is valid (sm.valid), and its two
axes. -/
structure TickInput where
  carStateAlive : Bool
  carStateValid : Bool
  carState : CarState
  joyUpdated : Bool
  joyValid : Bool
  joyAxes : ℚ × ℚ
  deriving DecidableEq, Repr

/-- The mutable locals of joystickd_thread carried across loop iterations
(lines 35-44).  graceful_stop_debounce is an integer: -1 encodes inactive. -/
structure DaemonState where
  loop_count : ℕ
  CS_prev : Option CarState
  last_joystick_update : ℕ
  system_enabled : Bool
  user_disabled : Bool
  joystick_active : Bool
  graceful_stop_debounce : ℤ
  deriving DecidableEq, Repr

/-- Initial values, lines 35-44. -/
def initState : DaemonState where
  loop_count := 0
  CS_prev := none
  last_joystick_update := 0
  system_enabled := false
  user_disabled := true
  joystick_active := false
  graceful_stop_debounce := -1

/-- JOYSTICK_TIMEOUT, line 39. -/
def JOYSTICK_TIMEOUT : ℕ := 5

/-- CC.actuators with capnp defaults. -/
structure Actuators where
  accel : ℚ := 0
  torque : ℚ := 0
  longControlState : LongCtrlState := .off
  deriving DecidableEq, Repr

/-- The carControl fields the daemon assigns (lines 70-72, 166-176, 196-245),
with capnp defaults for everything a branch may leave untouched. -/
structure CarControl where
  enabled : Bool := false
  latActive : Bool := false
  longActive : Bool := false
  cruiseCancel : Bool := false
  cruiseOverride : Bool := false
  cruiseResume : Bool := false
  leadDistanceBars : ℤ := 0
  setSpeed : ℚ := 0
  leadVisible : Bool := false
  actuators : Actuators := {}
  deriving DecidableEq, Repr

/-- log.SelfdriveState.OpenpilotState (capnp enum, value 0 is disabled). -/
inductive OpState
  | disabled
  | preEnabled
  | enabled
  | overriding
  deriving DecidableEq, Repr

/-- log.SelfdriveState.AlertStatus (capnp enum, value 0 is normal). -/
inductive AlertStatus
  | normal
  | userPrompt
  | critical
  deriving DecidableEq, Repr

/-- log.SelfdriveState.AlertSize (capnp enum, value 0 is none). -/
inductive AlertSize
  | none
  | small
  | mid
  | full
  deriving DecidableEq, Repr

/-- The selfdriveState message; defaults are the capnp defaults a fresh
messaging.new_message carries for unassigned fields. -/
structure SelfdriveState where
  state : OpState := .disabled
  alertText1 : String := ""
  alertText2 : String := ""
  alertStatus : AlertStatus := .normal
  alertSize : AlertSize := .none
  enabled : Bool := false
  active : Bool := false
  engageable : Bool := false
  experimentalMode : Bool := false
  deriving DecidableEq, Repr

/-- np.clip for scalars: min(max(x, lo), hi). -/
def clip (x lo hi : ℚ) : ℚ := min (max x lo) hi

/-- Joystick activity detection and countdown edge handling, lines 77-96,
together with the loop-counter increment at line 49.  In the source
loop_count - last_joystick_update is an int subtraction on values with
last_joystick_update ≤ loop_count; the natural-number truncated subtraction
agrees with it on all states (a negative difference and a truncated 0 both
satisfy ≤ JOYSTICK_TIMEOUT). -/
def livenessUpdate (st : DaemonState) (inp : TickInput) : DaemonState :=
  let loop_count := st.loop_count + 1
  let last_joystick_update :=
    if inp.joyUpdated && inp.joyValid then loop_count else st.last_joystick_update
  let prev_joy := st.joystick_active
  let joystick_active : Bool := loop_count - last_joystick_update ≤ JOYSTICK_TIMEOUT
  let graceful_stop_debounce : ℤ :=
    if prev_joy && !joystick_active then 200
    else if joystick_active && !prev_joy then -1
    else if !joystick_active && st.graceful_stop_debounce > 0 then
      st.graceful_stop_debounce - 1
    else st.graceful_stop_debounce
  { st with
      loop_count := loop_count
      last_joystick_update := last_joystick_update
      joystick_active := joystick_active
      graceful_stop_debounce := graceful_stop_debounce }

/-- User override detection, lines 128-139 (steer_override is tracked by the
source but unused for disabling). -/
def overrideUpdate (st : DaemonState) (CS : CarState) : DaemonState :=
  match st.CS_prev with
  | none => st
  | some CS_prev =>
      let brake_override := CS.brakePressed && (!CS_prev.brakePressed || !CS.standstill)
      let gas_override := CS.gasPressed && !CS_prev.gasPressed
      if brake_override || gas_override then
        { st with user_disabled := true, system_enabled := false }
      else st

/-- Membership test of line 147-150. -/
def qualifyingType (t : ButtonType) : Bool :=
  t = .setCruise || t = .resumeCruise || t = .mainCruise || t = .accelCruise

/-- A button event that can re-enable the system: qualifying type and pressed. -/
def qualifyingPress (b : ButtonEvent) : Bool :=
  qualifyingType b.type && b.pressed

/-- The for-loop over CS.buttonEvents with its break statements, lines
145-157: scan until the first qualifying pressed button; succeed exactly when
the joystick is active at that point (the loop breaks either way). -/
def reenableScan (joystick_active : Bool) : List ButtonEvent → Bool
  | [] => false
  | b :: rest =>
      if qualifyingPress b then
        if !joystick_active then false
        else true
      else reenableScan joystick_active rest

/-- Cruise-button re-enable gate, lines 143-157. -/
def reenableUpdate (st : DaemonState) (CS : CarState) : DaemonState :=
  if st.user_disabled && decide (0 < CS.buttonEvents.length) then
    if reenableScan st.joystick_active CS.buttonEvents then
      { st with user_disabled := false, system_enabled := true }
    else st
  else st

/-- Control mode flags and cruise/hud fields, lines 166-176. -/
def controlFlags (CP : CarParams) (st : DaemonState) (CS : CarState) : CarControl :=
  let enabled := st.system_enabled && !CS.steerFaultPermanent
  let latActive := enabled && !CS.steerFaultTemporary
  let longActive := enabled && CP.openpilotLongitudinalControl
  { enabled := enabled
    latActive := latActive
    longActive := longActive
    cruiseCancel := CS.cruiseState.enabled && !enabled
    cruiseOverride := false
    cruiseResume := false
    leadDistanceBars := 2
    setSpeed := 55 * (if !CS.cruiseState.available then 1609 / 1000 else 1)
    leadVisible := false }

/-- Joystick input selection, lines 188-193: the latest axes are consumed
when the joystick is active AND a message arrived this tick (sm.updated,
without the validity conjunct the liveness tracker uses); otherwise neutral
axes. -/
def selectAxes (st : DaemonState) (inp : TickInput) : ℚ × ℚ :=
  if st.joystick_active && inp.joyUpdated then inp.joyAxes else (0, 0)

/-- Longitudinal control, lines 201-229. -/
def longControl (st : DaemonState) (cc : CarControl) (axes : ℚ × ℚ) (CS : CarState) :
    Actuators :=
  let a := cc.actuators
  if st.system_enabled && !st.joystick_active && st.graceful_stop_debounce ≥ 0 then
    let a :=
      if st.graceful_stop_debounce > 0 then { a with accel := -1 }
      else if st.graceful_stop_debounce = 0 then { a with accel := -3 }
      else a
    { a with longControlState := if CS.vEgo > 1 / 10 then .pid else .stopping }
  else if cc.longActive then
    let a := { a with accel := 4 * clip axes.1 (-1) 1 }
    { a with
        longControlState :=
          if CS.vEgo > 1 / 10 then .pid
          else if a.accel > 1 / 10 then .pid
          else .stopping }
  else
    { a with
        accel := 0
        longControlState := if CS.vEgo > 1 / 10 then .pid else .stopping }

/-- Lateral control, lines 238-245 (the inner try/except guards only the
print; np.clip itself cannot raise). -/
def latControl (cc : CarControl) (axes : ℚ × ℚ) (a : Actuators) : Actuators :=
  if cc.latActive then { a with torque := clip axes.2 (-1) 1 } else a

/-- Renders the countdown (ticks) as seconds with one decimal digit,
mirroring the format of line 296 (the source formats the double d/100 with
one decimal; this integer rendering rounds ties up, which differs from the
binary-float display only in the last digit for a few tie values — no claim
depends on this text). -/
def stoppingSecondsText (d : ℤ) : String :=
  let tenths := (d + 5) / 10
  toString (tenths / 10) ++ "." ++ toString (tenths % 10)

/-- The early selfdriveState published when car data is missing or invalid,
lines 102-117. -/
def noCarDataStatus : SelfdriveState where
  state := .disabled
  alertText1 := "No Car Data"
  alertText2 := "Waiting for car connection"
  alertStatus := .normal
  alertSize := .small
  enabled := false
  active := false
  engageable := false
  experimentalMode := false

/-- Final status reporting, lines 275-315.  The first branch of the source
(line 280) is statically dead (if False) and is kept as a vacuous test.
Unassigned fields keep the message defaults. -/
def statusReport (st : DaemonState) (CS : CarState) (cc : CarControl) :
    SelfdriveState :=
  let sd : SelfdriveState := {}
  let sd :=
    if false then
      { sd with
          state := .disabled
          alertText1 := "ACC FAULT"
          alertText2 := "TAKE CONTROL"
          alertStatus := .critical
          alertSize := .full }
    else if CS.steerFaultPermanent then
      { sd with
          state := .disabled
          alertText1 := "STEER FAULT"
          alertText2 := "TAKE CONTROL"
          alertStatus := .critical
          alertSize := .full }
    else if st.system_enabled && !st.joystick_active &&
        st.graceful_stop_debounce ≥ 0 then
      { sd with
          state := .disabled
          alertText1 := "JOYSTICK LOST - TAKE CONTROL"
          alertText2 := "Stopping in " ++ stoppingSecondsText st.graceful_stop_debounce ++ "s"
          alertStatus := .critical
          alertSize := .full }
    else if !st.joystick_active then
      { sd with
          state := .disabled
          alertText1 := "No Joystick"
          alertText2 := "Connect joystick input"
          alertStatus := .normal
          alertSize := .small }
    else if st.user_disabled then
      { sd with
          state := .disabled
          alertText1 := "System Disabled"
          alertText2 := "Press cruise button to re-enable"
          alertStatus := .userPrompt
          alertSize := .mid }
    else sd
  { sd with
      enabled := cc.enabled
      active := cc.latActive || cc.longActive
      engageable := cc.enabled && !CS.steerFaultPermanent
      experimentalMode := false }

/-- What one loop iteration publishes.  carControl is none on the no-car-data
short-circuit (the continue at line 119 skips the send at line 247). -/
structure TickOutput where
  onroadEventsSent : Bool
  carControl : Option CarControl
  selfdriveState : SelfdriveState
  deriving DecidableEq, Repr

/-- One iteration of the while-loop body, lines 46-322, without the
exception paths: state update and published messages. -/
def tick (CP : CarParams) (st : DaemonState) (inp : TickInput) :
    DaemonState × TickOutput :=
  let st := livenessUpdate st inp
  let onroadEventsSent := st.loop_count % 100 = 1
  if !inp.carStateAlive || !inp.carStateValid then
    (st, { onroadEventsSent := onroadEventsSent
           carControl := none
           selfdriveState := noCarDataStatus })
  else
    let CS := inp.carState
    let st := overrideUpdate st CS
    let st := reenableUpdate st CS
    let cc := controlFlags CP st CS
    let axes := selectAxes st inp
    let a := longControl st cc axes CS
    let a := latControl cc axes a
    let cc := { cc with actuators := a }
    let sd := statusReport st CS cc
    let st := { st with CS_prev := some CS }
    (st, { onroadEventsSent := onroadEventsSent
           carControl := some cc
           selfdriveState := sd })

/-- A tick on the valid-car-data path whose carControl publish (line 247)
raises: the per-tick try/except (lines 47 and 324-327) catches the exception
and the loop continues with the next iteration, but nothing is rolled back —
every mutation made before the raising statement persists (liveness,
countdown, override and re-enable updates), and every statement after it is
skipped, including the CS_prev assignment at line 320. -/
def tickFaultAtCarControlSend (st : DaemonState) (inp : TickInput) : DaemonState :=
  let st := livenessUpdate st inp
  if !inp.carStateAlive || !inp.carStateValid then st
  else reenableUpdate (overrideUpdate st inp.carState) inp.carState

/-- Iterated state after a sequence of tick inputs. -/
def run (CP : CarParams) (st : DaemonState) : List TickInput → DaemonState
  | [] => st
  | inp :: rest => run CP (tick CP st inp).1 rest

/-- The outputs published along a sequence of tick inputs. -/
def runOutputs (CP : CarParams) (st : DaemonState) : List TickInput → List TickOutput
  | [] => []
  | inp :: rest => (tick CP st inp).2 :: runOutputs CP (tick CP st inp).1 rest

/-! Concrete fixtures used to evaluate the model on explicit inputs. -/

/-- A platform with longitudinal control available. -/
def cpLong : CarParams where
  openpilotLongitudinalControl := true

/-- Nominal moving car: 5 m/s, no pedals, no faults, no buttons. -/
def csNominal : CarState where
  vEgo := 5
  gasPressed := false
  brakePressed := false
  standstill := false
  steeringPressed := false
  steerFaultTemporary := false
  steerFaultPermanent := false
  buttonEvents := []
  cruiseState := { enabled := false, available := true }
  steeringAngleDeg := 0

/-- Valid car data, no joystick message this tick. -/
def inpNoJoy : TickInput where
  carStateAlive := true
  carStateValid := true
  carState := csNominal
  joyUpdated := false
  joyValid := false
  joyAxes := (0, 0)

/-- Valid car data and a fresh (updated and valid) joystick message. -/
def inpJoyFresh : TickInput where
  carStateAlive := true
  carStateValid := true
  carState := csNominal
  joyUpdated := true
  joyValid := true
  joyAxes := (1 / 2, 0)

/-- Engaged and live: system enabled, not user-disabled, joystick seen on the
current loop, countdown inactive. -/
def stEngaged : DaemonState where
  loop_count := 1000
  CS_prev := some csNominal
  last_joystick_update := 1000
  system_enabled := true
  user_disabled := false
  joystick_active := true
  graceful_stop_debounce := -1

/-- Scenario B trace: from the engaged state, 210 ticks with valid car data
and no joystick message.  The joystick stays active for 5 ticks, the
active-to-inactive edge fires on the 6th (index 5), so index 5 + k is tick k
after the loss. -/
def outsB : List TickOutput := runOutputs cpLong stEngaged (List.replicate 210 inpNoJoy)

/-- The engaged state 210 loops after the joystick was last seen: countdown
exhausted at 0, joystick inactive. -/
def stLost : DaemonState where
  loop_count := 1210
  CS_prev := some csNominal
  last_joystick_update := 1000
  system_enabled := true
  user_disabled := false
  joystick_active := false
  graceful_stop_debounce := 0

/-- Engaged with the last fresh joystick sample 2 loops ago. -/
def stJoyRecent : DaemonState where
  loop_count := 1000
  CS_prev := some csNominal
  last_joystick_update := 998
  system_enabled := true
  user_disabled := false
  joystick_active := true
  graceful_stop_debounce := -1

/-- csNominal with the brake newly pressed while moving. -/
def csBrake : CarState :=
  { csNominal with brakePressed := true }

/-- Brake newly pressed while moving and, on the same tick, a qualifying
cruise-button press. -/
def csBrakeButton : CarState :=
  { csNominal with
      brakePressed := true
      buttonEvents := [{ type := .setCruise, pressed := true }] }

/-- Valid car data with the brake override firing, no joystick message. -/
def inpBrake : TickInput where
  carStateAlive := true
  carStateValid := true
  carState := csBrake
  joyUpdated := false
  joyValid := false
  joyAxes := (0, 0)

/-- Valid car data: brake override and a qualifying button press on the same
tick, with a fresh joystick message. -/
def inpBrakeButton : TickInput where
  carStateAlive := true
  carStateValid := true
  carState := csBrakeButton
  joyUpdated := true
  joyValid := true
  joyAxes := (0, 0)

/-- An updated but invalid joystick message carrying non-neutral axes. -/
def inpInvalidJoy : TickInput where
  carStateAlive := true
  carStateValid := true
  carState := csNominal
  joyUpdated := true
  joyValid := false
  joyAxes := (1 / 2, 1 / 2)

/-- csNominal with a qualifying cruise-button press. -/
def csButton : CarState :=
  { csNominal with buttonEvents := [{ type := .setCruise, pressed := true }] }

/-- Valid car data, qualifying button press, fresh joystick message. -/
def inpButton : TickInput where
  carStateAlive := true
  carStateValid := true
  carState := csButton
  joyUpdated := true
  joyValid := true
  joyAxes := (0, 0)

/-- stEngaged but user-disabled and system off, awaiting the re-enable gate. -/
def stUserDisabled : DaemonState :=
  { stEngaged with system_enabled := false, user_disabled := true }

/-! Helper lemmas about the update phases. -/

/-- overrideUpdate either leaves the state unchanged or only disables it. -/
theorem overrideUpdate_cases (st : DaemonState) (CS : CarState) :
    overrideUpdate st CS = st ∨
      overrideUpdate st CS = { st with user_disabled := true, system_enabled := false } := by
  unfold overrideUpdate
  cases st.CS_prev with
  | none => exact Or.inl rfl
  | some prev =>
      dsimp only
      split
      · exact Or.inr rfl
      · exact Or.inl rfl

/-- reenableUpdate either leaves the state unchanged or only enables it. -/
theorem reenableUpdate_cases (st : DaemonState) (CS : CarState) :
    reenableUpdate st CS = st ∨
      reenableUpdate st CS = { st with user_disabled := false, system_enabled := true } := by
  unfold reenableUpdate
  split
  · split
    · exact Or.inr rfl
    · exact Or.inl rfl
  · exact Or.inl rfl

/-- The break-on-first-qualifying-press scan succeeds exactly when the
joystick is active and some qualifying press is present. -/
theorem reenableScan_eq_any (a : Bool) (bs : List ButtonEvent) :
    reenableScan a bs = (a && bs.any qualifyingPress) := by
  induction bs with
  | nil => cases a <;> rfl
  | cons b rest ih =>
      by_cases h : qualifyingPress b = true
      · cases a <;> simp [reenableScan, h]
      · simp only [Bool.not_eq_true] at h
        simp [reenableScan, h, ih]

/-- For a user-disabled state, the re-enable gate enables exactly when the
joystick is active and a qualifying press arrived. -/
theorem reenableUpdate_spec (st : DaemonState) (CS : CarState)
    (h : st.user_disabled = true) :
    reenableUpdate st CS =
      if st.joystick_active && CS.buttonEvents.any qualifyingPress then
        { st with user_disabled := false, system_enabled := true }
      else st := by
  unfold reenableUpdate
  rw [h, reenableScan_eq_any]
  cases hbs : CS.buttonEvents with
  | nil => simp
  | cons b rest => simp

/-- A tick with the car-state message invalid, during the loop on which the
joystick would be declared lost. -/
def inpNoCar : TickInput := { inpNoJoy with carStateValid := false }

/-- stEngaged advanced to the loop right before the liveness timeout: the
next tick without a fresh joystick sample fires the active-to-inactive
edge. -/
def stAboutToLose : DaemonState := { stEngaged with loop_count := 1005 }

/-- livenessUpdate does not touch user_disabled. -/
theorem livenessUpdate_user_disabled (st : DaemonState) (inp : TickInput) :
    (livenessUpdate st inp).user_disabled = st.user_disabled := rfl

/-- livenessUpdate does not touch system_enabled. -/
theorem livenessUpdate_system_enabled (st : DaemonState) (inp : TickInput) :
    (livenessUpdate st inp).system_enabled = st.system_enabled := rfl

/-- livenessUpdate does not touch the stored previous car state. -/
theorem livenessUpdate_CS_prev (st : DaemonState) (inp : TickInput) :
    (livenessUpdate st inp).CS_prev = st.CS_prev := rfl

/-- overrideUpdate touches only user_disabled and system_enabled. -/
theorem overrideUpdate_fields (st : DaemonState) (CS : CarState) :
    (overrideUpdate st CS).loop_count = st.loop_count ∧
    (overrideUpdate st CS).CS_prev = st.CS_prev ∧
    (overrideUpdate st CS).last_joystick_update = st.last_joystick_update ∧
    (overrideUpdate st CS).joystick_active = st.joystick_active ∧
    (overrideUpdate st CS).graceful_stop_debounce = st.graceful_stop_debounce := by
  rcases overrideUpdate_cases st CS with h | h <;> simp [h]

/-- reenableUpdate touches only user_disabled and system_enabled. -/
theorem reenableUpdate_fields (st : DaemonState) (CS : CarState) :
    (reenableUpdate st CS).loop_count = st.loop_count ∧
    (reenableUpdate st CS).CS_prev = st.CS_prev ∧
    (reenableUpdate st CS).last_joystick_update = st.last_joystick_update ∧
    (reenableUpdate st CS).joystick_active = st.joystick_active ∧
    (reenableUpdate st CS).graceful_stop_debounce = st.graceful_stop_debounce := by
  rcases reenableUpdate_cases st CS with h | h <;> simp [h]

/-- With neither pedal pressed, the override step is the identity. -/
theorem overrideUpdate_no_pedals (st : DaemonState) (CS : CarState)
    (hb : CS.brakePressed = false) (hg : CS.gasPressed = false) :
    overrideUpdate st CS = st := by
  unfold overrideUpdate
  cases st.CS_prev <;> simp [hb, hg]

/-- The override step never clears user_disabled. -/
theorem overrideUpdate_user_disabled_true (st : DaemonState) (CS : CarState)
    (h : st.user_disabled = true) : (overrideUpdate st CS).user_disabled = true := by
  rcases overrideUpdate_cases st CS with hc | hc <;> simp [hc, h]

/-- The lateral step does not change accel. -/
theorem latControl_accel (cc : CarControl) (axes : ℚ × ℚ) (a : Actuators) :
    (latControl cc axes a).accel = a.accel := by
  unfold latControl
  split <;> rfl

/-- The longitudinal step does not change torque. -/
theorem longControl_torque (st : DaemonState) (cc : CarControl) (axes : ℚ × ℚ)
    (CS : CarState) : (longControl st cc axes CS).torque = cc.actuators.torque := by
  unfold longControl
  split
  · split
    · rfl
    · split <;> rfl
  · split <;> rfl

/-- With the system enabled, the joystick inactive, and the countdown at
exactly 0, the longitudinal step commands the hard-stop acceleration. -/
theorem longControl_hardstop (st : DaemonState) (cc : CarControl) (axes : ℚ × ℚ)
    (CS : CarState) (h1 : st.system_enabled = true) (h2 : st.joystick_active = false)
    (h3 : st.graceful_stop_debounce = 0) :
    (longControl st cc axes CS).accel = -3 := by
  unfold longControl
  simp [h1, h2, h3]

/-- Clipping the neutral axis value yields zero. -/
theorem clip_zero : clip 0 (-1) 1 = 0 := by
  norm_num [clip]

/-- The liveness/countdown update preserves the invariant that the countdown
is at least -1 and is non-negative only while the joystick is inactive. -/
theorem livenessUpdate_inv (st : DaemonState) (inp : TickInput)
    (hlb : -1 ≤ st.graceful_stop_debounce)
    (hinv : 0 ≤ st.graceful_stop_debounce → st.joystick_active = false) :
    -1 ≤ (livenessUpdate st inp).graceful_stop_debounce ∧
    (0 ≤ (livenessUpdate st inp).graceful_stop_debounce →
      (livenessUpdate st inp).joystick_active = false) := by
  have hkey : st.joystick_active = true → st.graceful_stop_debounce = -1 := by
    intro h
    by_cases h0 : 0 ≤ st.graceful_stop_debounce
    · rw [hinv h0] at h
      cases h
    · omega
  unfold livenessUpdate
  dsimp only
  generalize (decide (st.loop_count + 1 -
      (if inp.joyUpdated && inp.joyValid then st.loop_count + 1
        else st.last_joystick_update) ≤ JOYSTICK_TIMEOUT)) = act
  cases hprev : st.joystick_active
  · cases act
    · by_cases hd : st.graceful_stop_debounce > 0 <;> simp [hd] <;> omega
    · simp
  · have hm1 := hkey hprev
    cases act <;> simp [hm1]

/-- The countdown and joystick-active flag a tick carries forward are exactly
those produced by the liveness/countdown update (the later steps never touch
them, on either the no-car-data or the normal path). -/
theorem tick_fst_graceful (CP : CarParams) (st : DaemonState) (inp : TickInput) :
    (tick CP st inp).1.graceful_stop_debounce =
      (livenessUpdate st inp).graceful_stop_debounce ∧
    (tick CP st inp).1.joystick_active = (livenessUpdate st inp).joystick_active := by
  unfold tick
  dsimp only
  split
  · exact ⟨rfl, rfl⟩
  · have ho := overrideUpdate_fields (livenessUpdate st inp) inp.carState
    have hr := reenableUpdate_fields (overrideUpdate (livenessUpdate st inp) inp.carState)
      inp.carState
    simp [hr.2.2.2.1, hr.2.2.2.2, ho.2.2.2.1, ho.2.2.2.2]

/-- When the joystick is active after this tick's liveness update, a message
arrived this tick, and both control channels are active, the emitted request
carries the scaled clipped axis 0 as accel and the clipped axis 1 as
torque. -/
theorem tick_fresh_axes (CP : CarParams) (st : DaemonState) (inp : TickInput)
    (ha : inp.carStateAlive = true) (hv : inp.carStateValid = true)
    (hact3 : (reenableUpdate (overrideUpdate (livenessUpdate st inp) inp.carState)
        inp.carState).joystick_active = true)
    (hupd : inp.joyUpdated = true)
    (hlong : (controlFlags CP (reenableUpdate (overrideUpdate (livenessUpdate st inp)
        inp.carState) inp.carState) inp.carState).longActive = true)
    (hlat : (controlFlags CP (reenableUpdate (overrideUpdate (livenessUpdate st inp)
        inp.carState) inp.carState) inp.carState).latActive = true) :
    ((tick CP st inp).2.carControl.map fun cc => cc.actuators.accel) =
      some (4 * clip inp.joyAxes.1 (-1) 1) ∧
    ((tick CP st inp).2.carControl.map fun cc => cc.actuators.torque) =
      some (clip inp.joyAxes.2 (-1) 1) := by
  have hcond : (!inp.carStateAlive || !inp.carStateValid) = false := by
    rw [ha, hv]; rfl
  have haxes : selectAxes (reenableUpdate (overrideUpdate (livenessUpdate st inp)
      inp.carState) inp.carState) inp = inp.joyAxes := by
    unfold selectAxes
    rw [hact3, hupd]
    rfl
  unfold tick
  dsimp only
  rw [hcond]
  simp only [Bool.false_eq_true, if_false]
  rw [haxes]
  simp only [Option.map_some', Option.some.injEq]
  constructor
  · rw [latControl_accel]
    unfold longControl
    rw [hact3]
    simp only [Bool.not_true, Bool.and_false, Bool.false_and, Bool.false_eq_true, if_false]
    rw [if_pos hlong]
  · unfold latControl
    rw [if_pos hlat]

/-! Claim theorems. -/

/-- Claim C1: on every tick of every input sequence, whenever an actuation
request is emitted it satisfies latActive implies enabled and longActive
implies enabled (lines 166-168 compute both as conjunctions with
CC.enabled). -/
theorem lat_long_active_imply_enabled (CP : CarParams) (st : DaemonState)
    (inp : TickInput) :
    ((tick CP st inp).2.carControl.all fun cc =>
      (!cc.latActive || cc.enabled) && (!cc.longActive || cc.enabled)) = true := by
  unfold tick
  dsimp only
  split
  · rfl
  · simp only [Option.all_some]
    simp only [controlFlags]
    cases h : (reenableUpdate (overrideUpdate (livenessUpdate st inp) inp.carState)
        inp.carState).system_enabled &&
        !inp.carState.steerFaultPermanent <;> simp [h]

set_option maxRecDepth 100000 in
/-- Claim C2, counterexample: in the Scenario B trace, on the tick after the
countdown reached 0 (index 206, i.e. tick 201 after the loss) — and still at
index 209 — the published status shows the graceful-stop alert
"JOYSTICK LOST - TAKE CONTROL", never "No Joystick", because the status
branch of lines 293-298 remains selected while the countdown sits at 0. -/
theorem scenarioB_tail_status_not_no_joystick :
    ((outsB.get? 206).map fun o => o.selfdriveState.alertText1) =
      some "JOYSTICK LOST - TAKE CONTROL" ∧
    ((outsB.get? 206).map fun o => o.selfdriveState.alertText1) ≠ some "No Joystick" ∧
    ((outsB.get? 209).map fun o => o.selfdriveState.alertText1) ≠ some "No Joystick" := by
  decide

set_option maxRecDepth 100000 in
/-- Claim C2, amended: in Scenario B (active-to-inactive with systemEnabled),
tick 1 after the loss commands accel -1.0 with countdown 199 after the
decrement, tick 200 commands accel -3.0 with countdown 0, and on subsequent
ticks the status remains the disabled graceful-stop alert
"JOYSTICK LOST - TAKE CONTROL" (not "No Joystick"). -/
theorem scenarioB_trace :
    ((outsB.get? 6).map fun o => o.carControl.map fun cc => cc.actuators.accel) =
      some (some (-1)) ∧
    (run cpLong stEngaged (List.replicate 7 inpNoJoy)).graceful_stop_debounce = 199 ∧
    ((outsB.get? 205).map fun o => o.carControl.map fun cc => cc.actuators.accel) =
      some (some (-3)) ∧
    (run cpLong stEngaged (List.replicate 206 inpNoJoy)).graceful_stop_debounce = 0 ∧
    ((outsB.get? 206).map fun o => o.selfdriveState.alertText1) =
      some "JOYSTICK LOST - TAKE CONTROL" ∧
    ((outsB.get? 209).map fun o => o.selfdriveState.alertText1) =
      some "JOYSTICK LOST - TAKE CONTROL" ∧
    ((outsB.get? 209).map fun o => o.selfdriveState.state) = some OpState.disabled := by
  decide

set_option maxRecDepth 100000 in
/-- Claim C3, counterexample: in the Scenario B trace the hard stop is not
issued on exactly one tick: accel -3.0 is commanded both on the tick where
the countdown reaches 0 (index 205) and again on the following tick (index
206), the countdown holding at 0 (lines 206-208 fire on every tick with the
countdown at 0). -/
theorem hardstop_commanded_again_after_zero_tick :
    ((outsB.get? 205).map fun o => o.carControl.map fun cc => cc.actuators.accel) =
      some (some (-3)) ∧
    ((outsB.get? 206).map fun o => o.carControl.map fun cc => cc.actuators.accel) =
      some (some (-3)) ∧
    (run cpLong stEngaged (List.replicate 206 inpNoJoy)).graceful_stop_debounce = 0 ∧
    (run cpLong stEngaged (List.replicate 207 inpNoJoy)).graceful_stop_debounce = 0 := by
  decide

/-- Claim C3, amended: once the countdown is at exactly 0 with the system
enabled and the joystick inactive, every further tick with valid car data,
no fresh joystick sample, and no pedal press commands accel -3.0 again and
leaves the countdown at 0 with the joystick still inactive (so it never goes
negative and, absent a new active-to-inactive edge, is never re-armed). -/
theorem hardstop_repeats_while_countdown_zero (CP : CarParams) (st : DaemonState)
    (inp : TickInput)
    (hsys : st.system_enabled = true)
    (hjoy : st.joystick_active = false)
    (hdeb : st.graceful_stop_debounce = 0)
    (ha : inp.carStateAlive = true) (hv : inp.carStateValid = true)
    (hfresh : (inp.joyUpdated && inp.joyValid) = false)
    (hgap : ¬(st.loop_count + 1 - st.last_joystick_update ≤ JOYSTICK_TIMEOUT))
    (hbrake : inp.carState.brakePressed = false)
    (hgas : inp.carState.gasPressed = false) :
    ((tick CP st inp).2.carControl.map fun cc => cc.actuators.accel) = some (-3) ∧
    (tick CP st inp).1.graceful_stop_debounce = 0 ∧
    (tick CP st inp).1.joystick_active = false := by
  have hcond : (!inp.carStateAlive || !inp.carStateValid) = false := by
    rw [ha, hv]; rfl
  have hja1 : (livenessUpdate st inp).joystick_active = false := by
    unfold livenessUpdate
    dsimp only
    rw [hfresh]
    simp only [Bool.false_eq_true, if_false]
    exact decide_eq_false hgap
  have hdeb1 : (livenessUpdate st inp).graceful_stop_debounce = 0 := by
    unfold livenessUpdate
    dsimp only
    rw [hfresh]
    simp only [Bool.false_eq_true, if_false]
    rw [hjoy, decide_eq_false hgap]
    simp [hdeb]
  have hov : overrideUpdate (livenessUpdate st inp) inp.carState = livenessUpdate st inp :=
    overrideUpdate_no_pedals _ _ hbrake hgas
  have h3se : (reenableUpdate (livenessUpdate st inp) inp.carState).system_enabled
      = true := by
    rcases reenableUpdate_cases (livenessUpdate st inp) inp.carState with h | h <;>
      simp [h, livenessUpdate_system_enabled, hsys]
  have h3ja : (reenableUpdate (livenessUpdate st inp) inp.carState).joystick_active
      = false := by
    rw [(reenableUpdate_fields _ _).2.2.2.1]
    exact hja1
  have h3deb : (reenableUpdate (livenessUpdate st inp) inp.carState).graceful_stop_debounce
      = 0 := by
    rw [(reenableUpdate_fields _ _).2.2.2.2]
    exact hdeb1
  unfold tick
  dsimp only
  rw [hcond]
  simp only [Bool.false_eq_true, if_false]
  rw [hov]
  refine ⟨?_, ?_, ?_⟩
  · simp only [Option.map_some', Option.some.injEq]
    rw [latControl_accel]
    exact longControl_hardstop _ _ _ _ h3se h3ja h3deb
  · exact h3deb
  · exact h3ja

/-- Claim C3, witness: the amended theorem at the concrete exhausted-countdown
state stLost with a valid-car, no-joystick tick. -/
theorem hardstop_repeats_while_countdown_zero_witness :
    ((tick cpLong stLost inpNoJoy).2.carControl.map fun cc => cc.actuators.accel) =
      some (-3) ∧
    (tick cpLong stLost inpNoJoy).1.graceful_stop_debounce = 0 ∧
    (tick cpLong stLost inpNoJoy).1.joystick_active = false :=
  hardstop_repeats_while_countdown_zero cpLong stLost inpNoJoy rfl rfl rfl rfl rfl rfl
    (by decide) rfl rfl

/-- Claim C4, counterexample: starting from the daemon's initial state
(system disabled), six valid-car ticks with no joystick data arm the
countdown to 200 while systemEnabled is false — the edge at lines 84-87 does
not check system_enabled, so the countdown is non-inactive in a state the
claim says is impossible. -/
theorem countdown_armed_while_system_disabled :
    0 ≤ (run cpLong initState (List.replicate 6 inpNoJoy)).graceful_stop_debounce ∧
    (run cpLong initState (List.replicate 6 inpNoJoy)).system_enabled = false := by
  decide

/-- Claim C4, amended: at every tick boundary the countdown is at least -1
and is non-negative only while joystickActive is false (the systemEnabled
conjunct of the claim does not hold); the invariant holds in the initial
state and is preserved by every tick. -/
theorem countdown_nonneg_implies_joystick_inactive (CP : CarParams)
    (st : DaemonState) (inp : TickInput)
    (hlb : -1 ≤ st.graceful_stop_debounce)
    (hinv : 0 ≤ st.graceful_stop_debounce → st.joystick_active = false) :
    (-1 ≤ initState.graceful_stop_debounce ∧
      (0 ≤ initState.graceful_stop_debounce → initState.joystick_active = false)) ∧
    -1 ≤ (tick CP st inp).1.graceful_stop_debounce ∧
    (0 ≤ (tick CP st inp).1.graceful_stop_debounce →
      (tick CP st inp).1.joystick_active = false) := by
  obtain ⟨h1, h2⟩ := tick_fst_graceful CP st inp
  rw [h1, h2]
  exact ⟨by decide, livenessUpdate_inv st inp hlb hinv⟩

/-- Claim C4, witness: the amended invariant applied at the initial state
with a valid-car, no-joystick tick. -/
theorem countdown_nonneg_implies_joystick_inactive_witness :
    (-1 ≤ initState.graceful_stop_debounce ∧
      (0 ≤ initState.graceful_stop_debounce → initState.joystick_active = false)) ∧
    -1 ≤ (tick cpLong initState inpNoJoy).1.graceful_stop_debounce ∧
    (0 ≤ (tick cpLong initState inpNoJoy).1.graceful_stop_debounce →
      (tick cpLong initState inpNoJoy).1.joystick_active = false) :=
  countdown_nonneg_implies_joystick_inactive cpLong initState inpNoJoy (by decide)
    (by decide)

/-- Claim C5: on a valid-car tick starting with userDisabled true,
userDisabled ends false exactly when the joystick is currently active (after
this tick's liveness update) and some button event of type
set/resume/main/accel-cruise with pressed is present; on success
systemEnabled also ends true.  In particular a qualifying press with the
joystick inactive is rejected and userDisabled stays true. -/
theorem reenable_iff_qualifying_press_while_active (CP : CarParams)
    (st : DaemonState) (inp : TickInput)
    (hud : st.user_disabled = true)
    (ha : inp.carStateAlive = true) (hv : inp.carStateValid = true) :
    ((tick CP st inp).1.user_disabled = false ↔
      ((livenessUpdate st inp).joystick_active = true ∧
        inp.carState.buttonEvents.any qualifyingPress = true)) ∧
    ((tick CP st inp).1.user_disabled = false →
      (tick CP st inp).1.system_enabled = true) := by
  have hcond : (!inp.carStateAlive || !inp.carStateValid) = false := by
    rw [ha, hv]; rfl
  have hud2 : (overrideUpdate (livenessUpdate st inp) inp.carState).user_disabled
      = true :=
    overrideUpdate_user_disabled_true _ _ (by rw [livenessUpdate_user_disabled]; exact hud)
  have hja2 : (overrideUpdate (livenessUpdate st inp) inp.carState).joystick_active =
      (livenessUpdate st inp).joystick_active :=
    (overrideUpdate_fields _ _).2.2.2.1
  unfold tick
  dsimp only
  rw [hcond]
  simp only [Bool.false_eq_true, if_false]
  rw [reenableUpdate_spec _ _ hud2]
  by_cases hcase : ((overrideUpdate (livenessUpdate st inp) inp.carState).joystick_active &&
      inp.carState.buttonEvents.any qualifyingPress) = true
  · rw [if_pos hcase]
    rw [Bool.and_eq_true, hja2] at hcase
    constructor
    · simp [hcase]
    · intro _
      rfl
  · rw [if_neg hcase]
    rw [Bool.and_eq_true, hja2] at hcase
    constructor
    · dsimp only
      rw [hud2]
      simp only [Bool.true_eq_false, false_iff]
      exact hcase
    · dsimp only
      rw [hud2]
      intro h
      cases h

/-- Claim C5, witness: the re-enable gate at a user-disabled state with the
joystick active and a qualifying setCruise press. -/
theorem reenable_iff_qualifying_press_while_active_witness :
    ((tick cpLong stUserDisabled inpButton).1.user_disabled = false ↔
      ((livenessUpdate stUserDisabled inpButton).joystick_active = true ∧
        inpButton.carState.buttonEvents.any qualifyingPress = true)) ∧
    ((tick cpLong stUserDisabled inpButton).1.user_disabled = false →
      (tick cpLong stUserDisabled inpButton).1.system_enabled = true) :=
  reenable_iff_qualifying_press_while_active cpLong stUserDisabled inpButton rfl rfl rfl

/-- Claim C6, counterexample: the brake flips false-to-true while moving
(override condition holds), yet a qualifying cruise press on the same tick
with the joystick active re-enables the system at lines 143-157 (which run
after the override), so the emitted request has enabled = true and the tick
ends with userDisabled = false — contradicting the claim's
"hence enabled = false in the emitted actuation request". -/
theorem override_negated_by_same_tick_button :
    csBrakeButton.brakePressed = true ∧ csNominal.brakePressed = false ∧
    csBrakeButton.standstill = false ∧
    ((tick cpLong stEngaged inpBrakeButton).2.carControl.map fun cc => cc.enabled) =
      some true ∧
    (tick cpLong stEngaged inpBrakeButton).1.user_disabled = false ∧
    (tick cpLong stEngaged inpBrakeButton).1.system_enabled = true := by
  decide

/-- Claim C6, amended: on a valid-car tick with a previous telemetry
snapshot, if the brake-override or gas-override condition holds and no
qualifying cruise press with the joystick active occurs on the same tick,
then the tick ends with userDisabled = true, systemEnabled = false, and
enabled = false in the emitted actuation request, regardless of joystick
activity. -/
theorem override_disables_without_same_tick_button (CP : CarParams)
    (st : DaemonState) (inp : TickInput) (prev : CarState)
    (ha : inp.carStateAlive = true) (hv : inp.carStateValid = true)
    (hprev : st.CS_prev = some prev)
    (hover : (inp.carState.brakePressed = true ∧
        (prev.brakePressed = false ∨ inp.carState.standstill = false)) ∨
      (inp.carState.gasPressed = true ∧ prev.gasPressed = false))
    (hnore : (livenessUpdate st inp).joystick_active = false ∨
      inp.carState.buttonEvents.any qualifyingPress = false) :
    (tick CP st inp).1.user_disabled = true ∧
    (tick CP st inp).1.system_enabled = false ∧
    ((tick CP st inp).2.carControl.map fun cc => cc.enabled) = some false := by
  have hcond : (!inp.carStateAlive || !inp.carStateValid) = false := by
    rw [ha, hv]; rfl
  have hcs1 : (livenessUpdate st inp).CS_prev = some prev := by
    rw [livenessUpdate_CS_prev]; exact hprev
  have hcond2 : ((inp.carState.brakePressed &&
      (!prev.brakePressed || !inp.carState.standstill)) ||
      (inp.carState.gasPressed && !prev.gasPressed)) = true := by
    rcases hover with ⟨h1, h2⟩ | ⟨h1, h2⟩
    · rcases h2 with h2 | h2 <;> simp [h1, h2]
    · simp [h1, h2]
  have hov : overrideUpdate (livenessUpdate st inp) inp.carState =
      { livenessUpdate st inp with user_disabled := true, system_enabled := false } := by
    unfold overrideUpdate
    rw [hcs1]
    dsimp only
    rw [if_pos hcond2]
    simp [hcs1]
  have hud2 : (overrideUpdate (livenessUpdate st inp) inp.carState).user_disabled
      = true := by
    rw [hov]
  have hre : reenableUpdate (overrideUpdate (livenessUpdate st inp) inp.carState)
      inp.carState = overrideUpdate (livenessUpdate st inp) inp.carState := by
    rw [reenableUpdate_spec _ _ hud2]
    rw [if_neg ?hc]
    case hc =>
      rw [(overrideUpdate_fields _ _).2.2.2.1]
      rcases hnore with h | h <;> simp [h]
  unfold tick
  dsimp only
  rw [hcond]
  simp only [Bool.false_eq_true, if_false]
  rw [hre, hov]
  refine ⟨rfl, rfl, ?_⟩
  simp only [Option.map_some']
  unfold controlFlags
  dsimp only
  simp

/-- Claim C6, witness: the amended override property for a brake press while
moving on the engaged state, with no button press that tick. -/
theorem override_disables_without_same_tick_button_witness :
    (tick cpLong stEngaged inpBrake).1.user_disabled = true ∧
    (tick cpLong stEngaged inpBrake).1.system_enabled = false ∧
    ((tick cpLong stEngaged inpBrake).2.carControl.map fun cc => cc.enabled) =
      some false :=
  override_disables_without_same_tick_button cpLong stEngaged inpBrake csNominal rfl rfl
    rfl (Or.inl ⟨rfl, Or.inr rfl⟩) (Or.inr rfl)

/-- Claim C7, counterexample: on a tick with invalid car data the daemon does
emit only the No Car Data status and no actuation request, yet the
graceful-stop countdown is started on that very tick (from inactive -1 to
200), because the liveness and countdown handling of lines 77-96 runs before
the short-circuit check at line 102. -/
theorem no_car_data_tick_arms_countdown :
    stAboutToLose.graceful_stop_debounce = -1 ∧
    (tick cpLong stAboutToLose inpNoCar).2.carControl = none ∧
    (tick cpLong stAboutToLose inpNoCar).2.selfdriveState = noCarDataStatus ∧
    (tick cpLong stAboutToLose inpNoCar).1.graceful_stop_debounce = 200 := by
  decide

/-- Claim C7, amended: on a tick with absent or invalid car data only the
disabled No Car Data status is emitted and no actuation request; override
detection, the re-enable gate, flag computation and command synthesis are
skipped, but the resulting carried state is exactly the liveness/countdown
update of the prior state — so the countdown can still be started, cancelled
or decremented on such a tick. -/
theorem no_car_data_short_circuit_keeps_liveness (CP : CarParams)
    (st : DaemonState) (inp : TickInput)
    (h : inp.carStateAlive = false ∨ inp.carStateValid = false) :
    (tick CP st inp).2.carControl = none ∧
    (tick CP st inp).2.selfdriveState = noCarDataStatus ∧
    (tick CP st inp).1 = livenessUpdate st inp := by
  unfold tick
  dsimp only
  rcases h with h | h <;> simp [h]

/-- Claim C7, witness: the short-circuit applied at the invalid-car tick that
also fires the joystick-loss edge. -/
theorem no_car_data_short_circuit_keeps_liveness_witness :
    (tick cpLong stAboutToLose inpNoCar).2.carControl = none ∧
    (tick cpLong stAboutToLose inpNoCar).2.selfdriveState = noCarDataStatus ∧
    (tick cpLong stAboutToLose inpNoCar).1 = livenessUpdate stAboutToLose inpNoCar :=
  no_car_data_short_circuit_keeps_liveness cpLong stAboutToLose inpNoCar (Or.inr rfl)

/-- Claim C8, counterexample: on a fully normal tick (valid car data, no
permanent fault, joystick active, not user-disabled, system enabled, no
graceful stop) the published status report's state field is the capnp
default disabled, not the engaged value: the status block of lines 275-317
has no else branch assigning a non-disabled state, even though its enabled
flag is true. -/
theorem normal_status_state_not_engaged_value :
    (tick cpLong stEngaged inpJoyFresh).2.selfdriveState.state = OpState.disabled ∧
    (tick cpLong stEngaged inpJoyFresh).2.selfdriveState.state ≠ OpState.enabled ∧
    (tick cpLong stEngaged inpJoyFresh).2.selfdriveState.enabled = true ∧
    (tick cpLong stEngaged inpJoyFresh).2.selfdriveState.alertText1 = "" ∧
    (tick cpLong stEngaged inpJoyFresh).1.user_disabled = false ∧
    (tick cpLong stEngaged inpJoyFresh).1.joystick_active = true ∧
    csNominal.steerFaultPermanent = false := by
  decide

/-- Claim C8, amended: when steerFaultPermanent is false, the joystick is
active and the user is not disabled (so neither the graceful-stop nor any
other alert branch fires), the status report keeps the message defaults:
state stays disabled (no branch sets an engaged state), both alert texts
empty, normal severity; the enabled and active flags reflect the computed
control flags. -/
theorem normal_status_keeps_message_defaults (st : DaemonState) (CS : CarState)
    (cc : CarControl)
    (hperm : CS.steerFaultPermanent = false)
    (hact : st.joystick_active = true) (hud : st.user_disabled = false) :
    (statusReport st CS cc).state = OpState.disabled ∧
    (statusReport st CS cc).alertText1 = "" ∧
    (statusReport st CS cc).alertText2 = "" ∧
    (statusReport st CS cc).alertStatus = AlertStatus.normal ∧
    (statusReport st CS cc).enabled = cc.enabled ∧
    (statusReport st CS cc).active = (cc.latActive || cc.longActive) := by
  unfold statusReport
  simp [hperm, hact, hud]

/-- Claim C8, witness: the normal-path status defaults at the engaged state
with nominal car data. -/
theorem normal_status_keeps_message_defaults_witness :
    (statusReport stEngaged csNominal (controlFlags cpLong stEngaged csNominal)).state =
      OpState.disabled ∧
    (statusReport stEngaged csNominal
      (controlFlags cpLong stEngaged csNominal)).alertText1 = "" ∧
    (statusReport stEngaged csNominal
      (controlFlags cpLong stEngaged csNominal)).alertText2 = "" ∧
    (statusReport stEngaged csNominal
      (controlFlags cpLong stEngaged csNominal)).alertStatus = AlertStatus.normal ∧
    (statusReport stEngaged csNominal (controlFlags cpLong stEngaged csNominal)).enabled =
      (controlFlags cpLong stEngaged csNominal).enabled ∧
    (statusReport stEngaged csNominal (controlFlags cpLong stEngaged csNominal)).active =
      ((controlFlags cpLong stEngaged csNominal).latActive ||
        (controlFlags cpLong stEngaged csNominal).longActive) :=
  normal_status_keeps_message_defaults stEngaged csNominal
    (controlFlags cpLong stEngaged csNominal) rfl rfl rfl

/-- Claim C9, counterexample: a tick whose carControl publish raises after a
brake override was processed is not a no-op — the exception is caught and
the loop continues, but userDisabled has flipped to true and systemEnabled to
false, so the carried EngagementState does not equal its pre-tick value. -/
theorem fault_during_publish_mutations_persist :
    stEngaged.user_disabled = false ∧ stEngaged.system_enabled = true ∧
    (tickFaultAtCarControlSend stEngaged inpBrake).user_disabled = true ∧
    (tickFaultAtCarControlSend stEngaged inpBrake).system_enabled = false := by
  decide

/-- Claim C9, amended: an exception during a valid-car tick's carControl
publish is caught at the tick boundary and the loop continues, but nothing
is rolled back: the carried state agrees with the completed tick on
systemEnabled, userDisabled, joystickActive and the countdown (the mutations
made before the raising statement persist), while the previous-telemetry
snapshot keeps its pre-tick value because its update at line 320 comes after
the raising statement. -/
theorem fault_during_publish_keeps_prior_mutations (CP : CarParams)
    (st : DaemonState) (inp : TickInput)
    (ha : inp.carStateAlive = true) (hv : inp.carStateValid = true) :
    (tickFaultAtCarControlSend st inp).CS_prev = st.CS_prev ∧
    (tickFaultAtCarControlSend st inp).system_enabled =
      (tick CP st inp).1.system_enabled ∧
    (tickFaultAtCarControlSend st inp).user_disabled =
      (tick CP st inp).1.user_disabled ∧
    (tickFaultAtCarControlSend st inp).joystick_active =
      (tick CP st inp).1.joystick_active ∧
    (tickFaultAtCarControlSend st inp).graceful_stop_debounce =
      (tick CP st inp).1.graceful_stop_debounce ∧
    (tick CP st inp).1.CS_prev = some inp.carState := by
  have hcond : (!inp.carStateAlive || !inp.carStateValid) = false := by
    rw [ha, hv]; rfl
  unfold tickFaultAtCarControlSend tick
  dsimp only
  rw [hcond]
  refine ⟨?_, rfl, rfl, rfl, rfl, rfl⟩
  show (reenableUpdate (overrideUpdate (livenessUpdate st inp) inp.carState)
      inp.carState).CS_prev = st.CS_prev
  rw [(reenableUpdate_fields _ _).2.1, (overrideUpdate_fields _ _).2.1]
  rfl

/-- Claim C9, witness: the fault semantics at the engaged state with a
brake-override tick. -/
theorem fault_during_publish_keeps_prior_mutations_witness :
    (tickFaultAtCarControlSend stEngaged inpBrake).CS_prev = stEngaged.CS_prev ∧
    (tickFaultAtCarControlSend stEngaged inpBrake).system_enabled =
      (tick cpLong stEngaged inpBrake).1.system_enabled ∧
    (tickFaultAtCarControlSend stEngaged inpBrake).user_disabled =
      (tick cpLong stEngaged inpBrake).1.user_disabled ∧
    (tickFaultAtCarControlSend stEngaged inpBrake).joystick_active =
      (tick cpLong stEngaged inpBrake).1.joystick_active ∧
    (tickFaultAtCarControlSend stEngaged inpBrake).graceful_stop_debounce =
      (tick cpLong stEngaged inpBrake).1.graceful_stop_debounce ∧
    (tick cpLong stEngaged inpBrake).1.CS_prev = some inpBrake.carState :=
  fault_during_publish_keeps_prior_mutations cpLong stEngaged inpBrake rfl rfl

/-- Claim C10, counterexample: a joystick message that arrives this tick but
is invalid (so no fresh sample arrived, the last fresh one being 3 ticks
ago, within the 1-5 window) is still consumed: line 188 tests only
sm.updated, not validity, so the commanded accel is 4 times the invalid
message's axis 0 (here 2.0) and the torque its axis 1 (here 0.5), not the
neutral values the claim requires. -/
theorem updated_invalid_sample_consumed :
    inpInvalidJoy.joyValid = false ∧
    (livenessUpdate stJoyRecent inpInvalidJoy).joystick_active = true ∧
    ((livenessUpdate stJoyRecent inpInvalidJoy).loop_count -
      (livenessUpdate stJoyRecent inpInvalidJoy).last_joystick_update) = 3 ∧
    ((tick cpLong stJoyRecent inpInvalidJoy).2.carControl.map
      fun cc => cc.actuators.accel) = some 2 ∧
    ((tick cpLong stJoyRecent inpInvalidJoy).2.carControl.map
      fun cc => cc.actuators.torque) = some (1 / 2) := by
  have h := tick_fresh_axes cpLong stJoyRecent inpInvalidJoy rfl rfl (by decide) rfl
    (by decide) (by decide)
  have hc2 : clip (1 / 2 : ℚ) (-1) 1 = 1 / 2 := by
    unfold clip
    rw [max_eq_left (by norm_num : (-1 : ℚ) ≤ 1 / 2),
      min_eq_left (by norm_num : (1 / 2 : ℚ) ≤ 1)]
  refine ⟨rfl, by decide, by decide, ?_, ?_⟩
  · rw [h.1]
    show some (4 * clip (1 / 2 : ℚ) (-1) 1) = some 2
    rw [hc2]
    norm_num
  · rw [h.2]
    show some (clip (1 / 2 : ℚ) (-1) 1) = some (1 / 2)
    rw [hc2]

/-- Claim C10, amended: on a valid-car tick where the joystick is active but
no message at all arrived this tick (sm.updated false; the last fresh sample
being 1-5 ticks old keeps the joystick active), the synthesizer uses the
neutral axes, so the emitted accel and torque are both 0; only when a
message arrives this tick — even an invalid one — are its axes consumed. -/
theorem stale_joystick_neutral_axes (CP : CarParams) (st : DaemonState)
    (inp : TickInput)
    (ha : inp.carStateAlive = true) (hv : inp.carStateValid = true)
    (hact : (livenessUpdate st inp).joystick_active = true)
    (hupd : inp.joyUpdated = false) :
    ((tick CP st inp).2.carControl.map fun cc => cc.actuators.accel) = some 0 ∧
    ((tick CP st inp).2.carControl.map fun cc => cc.actuators.torque) = some 0 := by
  have hcond : (!inp.carStateAlive || !inp.carStateValid) = false := by
    rw [ha, hv]; rfl
  have hja3 : (reenableUpdate (overrideUpdate (livenessUpdate st inp) inp.carState)
      inp.carState).joystick_active = true := by
    rw [(reenableUpdate_fields _ _).2.2.2.1, (overrideUpdate_fields _ _).2.2.2.1]
    exact hact
  have haxes : selectAxes (reenableUpdate (overrideUpdate (livenessUpdate st inp)
      inp.carState) inp.carState) inp = (0, 0) := by
    unfold selectAxes
    rw [hupd]
    simp
  unfold tick
  dsimp only
  rw [hcond]
  simp only [Bool.false_eq_true, if_false]
  rw [haxes]
  simp only [Option.map_some', Option.some.injEq]
  constructor
  · rw [latControl_accel]
    unfold longControl
    rw [hja3]
    simp only [Bool.not_true, Bool.and_false, Bool.false_and, Bool.false_eq_true, if_false]
    split
    · dsimp only
      rw [clip_zero]
      norm_num
    · rfl
  · unfold latControl
    split
    · dsimp only
      exact clip_zero
    · rw [longControl_torque]
      rfl

/-- Claim C10, witness: the neutral-axes property at the state whose last
fresh sample is 2 ticks old, on a tick with no joystick message. -/
theorem stale_joystick_neutral_axes_witness :
    ((tick cpLong stJoyRecent inpNoJoy).2.carControl.map
      fun cc => cc.actuators.accel) = some 0 ∧
    ((tick cpLong stJoyRecent inpNoJoy).2.carControl.map
      fun cc => cc.actuators.torque) = some 0 :=
  stale_joystick_neutral_axes cpLong stJoyRecent inpNoJoy rfl rfl rfl rfl

end Joystickd
